import Mathlib

/-!
Verification of the shortlist-build engine (`src/engine.py`) of the
`dj-ai-shortlist` repository.

The Python source is shallowly embedded: every Python float is modelled as
a rational number `ℚ` (all arithmetic the engine performs on these values —
sums, means, absolute differences, divisions by nonzero constants, clamping
with `max` — is exact on the inputs the claims quantify over, so `ℚ` is a
faithful model), Python `None`-able fields become `Option`, raised
exceptions become `Except.error`, and the remote/filesystem world is an
explicit environment of oracles (`Env`): what each catalog page returns,
whether each streaming attempt succeeds, what feature vector each fetched
file analyses to, and what the stop flag reads at each poll.

Python's `set(...)` iteration order (used for the key majority vote in
`analyze_examples_folder`) is hash-based and, with string-hash
randomisation, not a function of insertion order; it is modelled as an
explicit enumeration parameter constrained to contain exactly the distinct
keys.
-/

namespace DJShortlist

/-- A five-dimensional acoustic feature vector, as returned by
`analyze_track` (the dict `{bpm, rhythm, key, brightness, bass}`). -/
structure Feature where
  bpm : ℚ
  rhythm : ℚ
  brightness : ℚ
  bass : ℚ
  key : String
  deriving DecidableEq, Repr

/-- The reference profile returned by `analyze_examples_folder`. -/
structure Profile where
  bpm : ℚ
  rhythm : ℚ
  brightness : ℚ
  bass : ℚ
  key : String
  count : ℕ
  deriving DecidableEq, Repr

/-- One weight row of `GENRE_WEIGHTS` / `DEFAULT_WEIGHTS`. -/
structure Weights where
  bpm : ℚ
  rhythm : ℚ
  bass : ℚ
  brightness : ℚ
  key : ℚ
  deriving DecidableEq, Repr

/-- `SUPPORTED_EXT = (".mp3", ".wav", ".aiff")`. -/
def SUPPORTED_EXT : List String := [".mp3", ".wav", ".aiff"]

/-- Python's `str.lower()`, character by character (`Char.toLower` is
exactly ASCII lower-casing; the engine only lowers file extensions). The
library's `String.toLower` is extensionally the same map but is defined by
well-founded recursion over byte positions, which concrete instances
cannot compute through, so the character-list form is used. -/
def strLower (s : String) : String := ⟨s.data.map Char.toLower⟩

/-- Python's `s.strip()`: drop leading and trailing whitespace. -/
def pyStrip (s : String) : String :=
  ⟨((s.data.dropWhile Char.isWhitespace).reverse.dropWhile Char.isWhitespace).reverse⟩

/-- Python's `s.replace(a, b)` for one-character `a` and `b` (the engine
replaces `"/"` by `"_"` in file names and `" "` by `"_"` in genre
directory names). -/
def replaceChar (a b : Char) (s : String) : String :=
  ⟨s.data.map fun c => if c = a then b else c⟩

/-- `MAX_STREAM_RETRIES = 3`. -/
def MAX_STREAM_RETRIES : ℕ := 3

/-- The `GENRE_WEIGHTS` dict of `src/engine.py`, as an association list in
the source's literal order. -/
def GENRE_WEIGHTS : List (String × Weights) :=
  [ ("Afro House",
      { bpm := 20/100, rhythm := 35/100, bass := 25/100, brightness := 10/100, key := 10/100 }),
    ("Progressive House",
      { bpm := 20/100, rhythm := 20/100, bass := 10/100, brightness := 30/100, key := 20/100 }),
    ("Melodic House",
      { bpm := 20/100, rhythm := 20/100, bass := 10/100, brightness := 30/100, key := 20/100 }),
    ("Tech House",
      { bpm := 30/100, rhythm := 35/100, bass := 20/100, brightness := 5/100, key := 10/100 }),
    ("Drum & Bass",
      { bpm := 40/100, rhythm := 30/100, bass := 20/100, brightness := 5/100, key := 5/100 }),
    ("Techno",
      { bpm := 30/100, rhythm := 40/100, bass := 20/100, brightness := 5/100, key := 5/100 }) ]

/-- `DEFAULT_WEIGHTS` of `src/engine.py`. -/
def DEFAULT_WEIGHTS : Weights :=
  { bpm := 25/100, rhythm := 30/100, bass := 20/100, brightness := 15/100, key := 10/100 }

/-- `GENRE_WEIGHTS.get(genre, DEFAULT_WEIGHTS)`: in the controller `genre`
may be Python `None` (modelled `none`), which is never a dict key, so it
falls back to the default row. -/
def lookupWeights : Option String → Weights
  | none => DEFAULT_WEIGHTS
  | some g => (GENRE_WEIGHTS.lookup g).getD DEFAULT_WEIGHTS

/-- `similarity_score(example, candidate, genre)` of `src/engine.py`:
per-dimension sub-scores clamped below at 0, combined as a weighted sum.
(`example` is a Lean keyword, so the first argument is named `ex`.) -/
def similarity_score (ex : Profile) (candidate : Feature) (genre : Option String) : ℚ :=
  let w := lookupWeights genre
  let bpm_score := max 0 (1 - |ex.bpm - candidate.bpm| / 30)
  let rhythm_score := max 0 (1 - |ex.rhythm - candidate.rhythm| / (12/10))
  let brightness_score := max 0 (1 - |ex.brightness - candidate.brightness| / 2500)
  let bass_score := max 0 (1 - |ex.bass - candidate.bass| / (ex.bass + 1/1000000))
  let key_score : ℚ := if ex.key = candidate.key then 1 else 0
  w.bpm * bpm_score +
    w.rhythm * rhythm_score +
    w.bass * bass_score +
    w.brightness * brightness_score +
    w.key * key_score

/-- `float(np.mean(xs))` on a list of exact values. -/
def mean (xs : List ℚ) : ℚ := xs.sum / xs.length

/-- Accumulator loop of Python's `max(iterable, key=f)`: scan left to
right, replacing the current best only on a strictly greater key, so the
result is the leftmost element attaining the maximal key value. -/
def pyMaxGo (f : String → ℕ) (best : String) : List String → String
  | [] => best
  | x :: xs => pyMaxGo f (if f best < f x then x else best) xs

/-- Python's `max(iterable, key=f)` (raises on an empty iterable, modelled
as `none`). -/
def pyMax (f : String → ℕ) : List String → Option String
  | [] => none
  | x :: xs => some (pyMaxGo f x xs)

/-- One file of the examples folder, reduced to what
`analyze_examples_folder` observes of it: its extension and the outcome of
`analyze_track` on it (`none` models an analysis failure). -/
structure ExampleFile where
  ext : String
  feat : Option Feature
  deriving DecidableEq, Repr

/-- The feature vectors that survive `analyze_examples_folder`'s loop:
files whose lower-cased extension is in `SUPPORTED_EXT` and whose analysis
succeeds, in folder iteration order. -/
def exampleFeatures (files : List ExampleFile) : List Feature :=
  files.filterMap fun f =>
    if SUPPORTED_EXT.contains (strLower f.ext) then f.feat else none

/-- Error values the engine can raise (Python exception classes). -/
inductive EngineError where
  /-- `RuntimeError("No valid example tracks found")`. -/
  | noValidExamples : EngineError
  /-- An exception escaping `fetch_tracks` (transport error or
  `raise_for_status`). -/
  | catalogError : EngineError
  /-- `AttributeError` from `genre.replace` when `genre` is `None` at
  commit time. -/
  | attrError : EngineError
  deriving DecidableEq, Repr

/-- `analyze_examples_folder(folder)` of `src/engine.py`. `keyEnum` is the
iteration order of the Python set `set([f["key"] for f in features])`; the
majority vote is `max` of that set keyed by each key's multiplicity in the
full key list. -/
def analyze_examples_folder (files : List ExampleFile) (keyEnum : List String) :
    Except EngineError Profile :=
  let features := exampleFeatures files
  if features.isEmpty then
    .error .noValidExamples
  else
    let keys := features.map (·.key)
    .ok
      { bpm := mean (features.map (·.bpm)),
        rhythm := mean (features.map (·.rhythm)),
        brightness := mean (features.map (·.brightness)),
        bass := mean (features.map (·.bass)),
        key := (pyMax (fun k => keys.count k) keyEnum).getD "",
        count := features.length }

/-- `stream_track(stream_url)` of `src/engine.py`, abstracted over the
outcome of each attempt (`outcome a = true` iff attempt `a` streams to
completion). Every attempt first creates a fresh temporary file in the
cache directory; a failed attempt leaves that file behind (the `except`
branch never unlinks it). Returns the index of the successful attempt (the
attempt whose temp file is handed back), or `none` after `fuel` attempts,
paired with the number of temp files created in the cache directory. -/
def streamGo (outcome : ℕ → Bool) (attempt : ℕ) : ℕ → Option ℕ × ℕ
  | 0 => (none, 0)
  | fuel + 1 =>
    if outcome attempt then
      (some attempt, 1)
    else
      let r := streamGo outcome (attempt + 1) fuel
      (r.1, r.2 + 1)

/-- `stream_track` proper: `MAX_STREAM_RETRIES` attempts starting at 0. -/
def stream_track (outcome : ℕ → Bool) : Option ℕ × ℕ :=
  streamGo outcome 0 MAX_STREAM_RETRIES

/-- One catalog track record, reduced to the JSON fields the engine reads.
Each field is `Option` because the record is a dynamic dict: `none` models
an absent key. `artists` is the list under `"artists"` (absent key =
`none`); each element contributes a name only when it is a dict carrying a
`"name"` key, which is all `extract_artist_from_track` looks at. -/
structure Track where
  title : Option String
  genre : Option String
  release_date : Option String
  artists : Option (List (Option String))
  url : Option String
  deriving DecidableEq, Repr

/-- `extract_artist_from_track(track)` of `src/engine.py`. -/
def extract_artist_from_track (track : Track) : String :=
  match track.artists with
  | none => ""
  | some artists =>
    let names := artists.filterMap id
    if names.isEmpty then "" else String.intercalate ", " names

/-- One element of the `kept` list (a shortlist entry). -/
structure Entry where
  artist : String
  title : String
  genre : String
  score : ℚ
  deriving DecidableEq, Repr

/-- `round(score, 3)`: rounding to 3 decimal places (Python uses
round-half-to-even on binary floats; no claim depends on the half-way
tie direction, so the standard nearest-integer rounding of `ℚ` is used). -/
def round3 (q : ℚ) : ℚ := (round (q * 1000) : ℤ) / 1000

/-- `release_date.split("-")[0]`: the prefix before the first dash (on the
empty string Python yields `[""]`, so the year is `""`). -/
def yearOf (d : String) : String := ⟨d.data.takeWhile (· ≠ '-')⟩

/-- Python `genre not in genres` negated, for `genre` a possibly-`None`
string and `genres` a list of strings. -/
def optMem (g : Option String) (gs : List String) : Bool :=
  match g with
  | none => false
  | some s => gs.contains s

/-- The scan parameters handed to `build_shortlist_from_djdownload`
(`examples_folder` and the example analysis live in `Env`; `output_folder`
is a path prefix common to all commits and is dropped from the model). -/
structure Config where
  genres : List String
  selected_years : List String
  threshold : ℚ
  start_page : ℕ
  end_page : ℕ

/-- The observable world the engine runs against. -/
structure Env where
  /-- The examples folder: each file's extension and analysis outcome, in
  iteration order. -/
  examples : List ExampleFile
  /-- Iteration order of the Python set of example keys. -/
  keyEnum : List String
  /-- `fetch_tracks(page)`: `none` models an exception (transport failure
  or non-success status via `raise_for_status`). -/
  pages : ℕ → Option (List Track)
  /-- Outcome of streaming attempt `a` of the `n`-th `stream_track` call
  of the run. -/
  streamOutcome : ℕ → ℕ → Bool
  /-- `analyze_track` outcome on the file fetched by the `n`-th
  `stream_track` call. -/
  extractResult : ℕ → Option Feature
  /-- `stop_flag`: `none` when no flag is supplied; otherwise the value
  the flag reads at its `n`-th poll. -/
  stop : Option (ℕ → Bool)

/-- Mutable state of one run of the controller. `cache` counts the files
currently in the cache directory, `output` lists the committed files as
(genre directory, file name) pairs, `fetches` counts `stream_track`
calls, `polls` counts `stop_flag()` calls, and `pagesFetched` records the
pages for which `fetch_tracks` was invoked. -/
structure ScanState where
  kept : List Entry
  cache : ℕ
  output : List (String × String)
  fetches : ℕ
  polls : ℕ
  pagesFetched : List ℕ
  deriving DecidableEq, Repr

/-- The initial state of a run. -/
def initState : ScanState :=
  { kept := [], cache := 0, output := [], fetches := 0, polls := 0, pagesFetched := [] }

/-- `if stop_flag and stop_flag():` — polls the flag (counting the call)
only when one is supplied. -/
def pollStop (env : Env) (st : ScanState) : Bool × ScanState :=
  match env.stop with
  | none => (false, st)
  | some f => (f st.polls, { st with polls := st.polls + 1 })

/-- The genre filter condition `genres and genre not in genres` of the
controller's track loop. -/
def genreSkip (genres : List String) (track : Track) : Bool :=
  !genres.isEmpty && !optMem track.genre genres

/-- The year filter condition of the controller's track loop: it fires
only when `release_date` is truthy (present and non-empty), `"Older"` was
not selected, and the release year is not among the selected ones. -/
def yearSkip (selected_years : List String) (track : Track) : Bool :=
  match track.release_date with
  | some d =>
    d != "" && !selected_years.contains "Older"
      && !selected_years.contains (yearOf d)
  | none => false

/-- The body of the controller's per-track loop (everything after the
per-track stop poll): genre filter, year filter, mandatory-field check,
audio fetch, feature extraction, scoring, and commit or discard. -/
def processTrack (env : Env) (profile : Profile) (cfg : Config)
    (st : ScanState) (track : Track) : Except EngineError ScanState :=
  if genreSkip cfg.genres track then
    .ok st
  else
    if yearSkip cfg.selected_years track then
      .ok st
    else
      match track.url, track.title with
      | some _, some title =>
        let fetched := stream_track (env.streamOutcome st.fetches)
        let st₁ := { st with fetches := st.fetches + 1, cache := st.cache + fetched.2 }
        match fetched.1 with
        | none => .ok st₁
        | some _ =>
          match env.extractResult st.fetches with
          | none => .ok { st₁ with cache := st₁.cache - 1 }
          | some features =>
            let score := similarity_score profile features track.genre
            if cfg.threshold ≤ score then
              match track.genre with
              | none => .error .attrError
              | some g =>
                let artist := extract_artist_from_track track
                let t := pyStrip title
                let filename :=
                  replaceChar '/' '_'
                    (if artist != "" then artist ++ " - " ++ t ++ ".mp3" else t ++ ".mp3")
                .ok { st₁ with
                        cache := st₁.cache - 1,
                        output := st₁.output ++ [(replaceChar ' ' '_' g, filename)],
                        kept := st₁.kept ++
                          [{ artist := artist, title := t, genre := g, score := round3 score }] }
            else
              .ok { st₁ with cache := st₁.cache - 1 }
      | _, _ => .ok st

/-- The controller's inner (per-track) loop: poll the stop flag before
each track; a true poll breaks out of the page's track list. -/
def runTracks (env : Env) (profile : Profile) (cfg : Config) :
    List Track → ScanState → Except EngineError ScanState
  | [], st => .ok st
  | track :: rest, st =>
    let p := pollStop env st
    if p.1 then
      .ok p.2
    else
      match processTrack env profile cfg p.2 track with
      | .error e => .error e
      | .ok st' => runTracks env profile cfg rest st'

/-- The controller's outer (per-page) loop: poll the stop flag at the top
of each page iteration (a true poll ends the run with the accumulated
state), emit progress (observational, not modelled), fetch the page —
an exception in `fetch_tracks` propagates — then run the track loop. -/
def runLoop (env : Env) (profile : Profile) (cfg : Config) :
    List ℕ → ScanState → Except EngineError ScanState
  | [], st => .ok st
  | page :: rest, st =>
    let p := pollStop env st
    if p.1 then
      .ok p.2
    else
      let st₁ := { p.2 with pagesFetched := p.2.pagesFetched ++ [page] }
      match env.pages page with
      | none => .error .catalogError
      | some tracks =>
        match runTracks env profile cfg tracks st₁ with
        | .error e => .error e
        | .ok st₂ => runLoop env profile cfg rest st₂

/-- `range(start_page, end_page + 1)`. -/
def pageRange (start_page end_page : ℕ) : List ℕ :=
  (List.range (end_page + 1 - start_page)).map (· + start_page)

/-- The dict returned by `build_shortlist_from_djdownload`. -/
structure ScanResult where
  kept : ℕ
  tracks : List Entry
  deriving DecidableEq, Repr

/-- `build_shortlist_from_djdownload` of `src/engine.py`: build the
reference profile (its failure propagates), then run the page loop. -/
def build_shortlist_from_djdownload (env : Env) (cfg : Config) :
    Except EngineError ScanResult :=
  match analyze_examples_folder env.examples env.keyEnum with
  | .error e => .error e
  | .ok profile =>
    match runLoop env profile cfg (pageRange cfg.start_page cfg.end_page) initState with
    | .error e => .error e
    | .ok st => .ok { kept := st.kept.length, tracks := st.kept }

/-- Five nonnegative weights summing to 1 — what a well-formed weight row
satisfies. -/
def weightsOk (w : Weights) : Prop :=
  0 ≤ w.bpm ∧ 0 ≤ w.rhythm ∧ 0 ≤ w.bass ∧ 0 ≤ w.brightness ∧ 0 ≤ w.key ∧
    w.bpm + w.rhythm + w.bass + w.brightness + w.key = 1

/-! Concrete fixtures used by counterexamples and witnesses. -/

/-- A sample feature vector. -/
def feat0 : Feature :=
  { bpm := 120, rhythm := 1, brightness := 1000, bass := 5, key := "C" }

/-- The profile obtained from a single example with features `feat0`. -/
def prof0 : Profile :=
  { bpm := 120, rhythm := 1, brightness := 1000, bass := 5, key := "C", count := 1 }

/-- A candidate far from `prof0` in bpm. -/
def feat150 : Feature := { feat0 with bpm := 150 }

/-- A valid example file analysing to `feat0`. -/
def exFile0 : ExampleFile := { ext := ".mp3", feat := some feat0 }

/-- The `"Afro House"` weight row. -/
def afroW : Weights :=
  { bpm := 20/100, rhythm := 35/100, bass := 25/100, brightness := 10/100, key := 10/100 }

/-- A scan over the single page 1 with no filters. -/
def cfg0 : Config :=
  { genres := []
    selected_years := []
    threshold := 1/2
    start_page := 1
    end_page := 1 }

/-- An environment with one valid example whose every page fetch fails,
whose every streaming attempt fails, and with no stop flag. -/
def cexEnv1 : Env :=
  { examples := [exFile0]
    keyEnum := ["C"]
    pages := fun _ => none
    streamOutcome := fun _ _ => false
    extractResult := fun _ => none
    stop := none }

/-- An undated track with a genre, a title and a stream url. -/
def track2 : Track :=
  { title := some "T"
    genre := some "Techno"
    release_date := none
    artists := none
    url := some "u" }

/-- A feature vector varying only in bpm and key. -/
def cFeat (b : ℚ) (k : String) : Feature :=
  { bpm := b, rhythm := 1, brightness := 1000, bass := 5, key := k }

/-- The spec's profile-building example: bpm 120/122/124, keys C, C, G. -/
def meanFiles : List ExampleFile :=
  [ { ext := ".mp3", feat := some (cFeat 120 "C") },
    { ext := ".mp3", feat := some (cFeat 122 "C") },
    { ext := ".mp3", feat := some (cFeat 124 "G") } ]

/-- The profile `analyze_examples_folder` builds from `meanFiles`. -/
def meanProfile : Profile :=
  { bpm := 122, rhythm := 1, brightness := 1000, bass := 5, key := "C", count := 3 }

/-- Four examples whose keys tie: C, C, G, G. -/
def tieFiles : List ExampleFile :=
  [ { ext := ".mp3", feat := some (cFeat 120 "C") },
    { ext := ".mp3", feat := some (cFeat 120 "C") },
    { ext := ".mp3", feat := some (cFeat 120 "G") },
    { ext := ".mp3", feat := some (cFeat 120 "G") } ]

/-- A stop flag that reads true at every poll. -/
def stopAlways : ℕ → Bool := fun _ => true

/-- `cexEnv1` with a stop flag that is already set. -/
def stopEnv : Env := { cexEnv1 with stop := some stopAlways, pages := fun _ => some [] }

/-- `cexEnv1` with an empty examples folder. -/
def emptyExamplesEnv : Env := { cexEnv1 with examples := [] }

/-- An environment whose streaming always succeeds on the first attempt
and whose feature extraction always returns `feat0`. -/
def env10 : Env :=
  { examples := [exFile0]
    keyEnum := ["C"]
    pages := fun _ => some [track2]
    streamOutcome := fun _ _ => true
    extractResult := fun _ => some feat0
    stop := none }

/-- A scan request for genre Techno, year 2025 only, threshold 1/2. -/
def cfg10 : Config :=
  { genres := ["Techno"]
    selected_years := ["2025"]
    threshold := 1/2
    start_page := 1
    end_page := 1 }

/-- The spec's year-filter scenario request: Afro House, year 2025 only. -/
def cfg6 : Config :=
  { genres := ["Afro House"]
    selected_years := ["2025"]
    threshold := 1/2
    start_page := 1
    end_page := 1 }

/-- The spec's year-filter scenario track: released 2024-05-01, genre in
the requested set, title and stream url present. -/
def track6 : Track :=
  { title := some "X"
    genre := some "Afro House"
    release_date := some "2024-05-01"
    artists := none
    url := some "u" }

end DJShortlist

namespace DJShortlist

/-! ## Helper lemmas -/

/-- Every weight row `GENRE_WEIGHTS.get` can return — the six table rows
and the default — is nonnegative in each component and sums to 1. -/
theorem weightsOk_lookup (g : Option String) : weightsOk (lookupWeights g) := by
  cases g with
  | none => norm_num [weightsOk, lookupWeights, DEFAULT_WEIGHTS]
  | some s =>
    simp only [lookupWeights, GENRE_WEIGHTS, List.lookup]
    repeat' split
    all_goals norm_num [weightsOk, DEFAULT_WEIGHTS, Option.getD]

/-! ## C8: every genre weight row sums to 1 -/

/-- C8: for every genre with a row in `GENRE_WEIGHTS`, the row's five
weights (bpm, rhythm, bass, brightness, key) sum to exactly 1, and
`DEFAULT_WEIGHTS` (used for unrecognized genres) also sums to 1. The model
uses exact rationals, so no floating tolerance is needed. -/
theorem genre_weight_rows_sum_to_one :
    (∀ p ∈ GENRE_WEIGHTS,
        (p.2).bpm + (p.2).rhythm + (p.2).bass + (p.2).brightness + (p.2).key = 1) ∧
      DEFAULT_WEIGHTS.bpm + DEFAULT_WEIGHTS.rhythm + DEFAULT_WEIGHTS.bass +
          DEFAULT_WEIGHTS.brightness + DEFAULT_WEIGHTS.key = 1 := by
  refine ⟨?_, by norm_num [DEFAULT_WEIGHTS]⟩
  intro p hp
  simp only [GENRE_WEIGHTS] at hp
  fin_cases hp <;> norm_num

/-- Witness for C8 at the `"Afro House"` row. -/
theorem genre_weight_rows_sum_to_one_witness :
    ("Afro House", afroW) ∈ GENRE_WEIGHTS ∧
      afroW.bpm + afroW.rhythm + afroW.bass + afroW.brightness + afroW.key = 1 :=
  ⟨by simp [GENRE_WEIGHTS, afroW],
    genre_weight_rows_sum_to_one.1 ("Afro House", afroW) (by simp [GENRE_WEIGHTS, afroW])⟩

/-! ## C5: similarity_score is a pure function into [0, 1] -/

/-- C5: for every reference profile (whose `bass` is nonnegative, as every
profile built from feature vectors is, `bass` being a mean of spectral
magnitudes), every candidate feature vector and every genre,
`similarity_score` lies in `[0, 1]`; determinism holds by construction —
the embedding of the score is a pure function, recorded here as the
idempotence equation the spec states. -/
theorem similarity_score_bounded_unit_interval (ex : Profile) (f : Feature)
    (g : Option String) (hbass : 0 ≤ ex.bass) :
    0 ≤ similarity_score ex f g ∧ similarity_score ex f g ≤ 1 ∧
      similarity_score ex f g = similarity_score ex f g := by
  obtain ⟨w1, w2, w3, w4, w5, hsum⟩ := weightsOk_lookup g
  have d1 : (0:ℚ) ≤ |ex.bpm - f.bpm| / 30 := div_nonneg (abs_nonneg _) (by norm_num)
  have d2 : (0:ℚ) ≤ |ex.rhythm - f.rhythm| / (12/10) :=
    div_nonneg (abs_nonneg _) (by norm_num)
  have d3 : (0:ℚ) ≤ |ex.brightness - f.brightness| / 2500 :=
    div_nonneg (abs_nonneg _) (by norm_num)
  have d4 : (0:ℚ) ≤ |ex.bass - f.bass| / (ex.bass + 1/1000000) :=
    div_nonneg (abs_nonneg _) (by linarith)
  have e1 : (0:ℚ) ≤ max 0 (1 - |ex.bpm - f.bpm| / 30) := le_max_left _ _
  have e2 : (0:ℚ) ≤ max 0 (1 - |ex.rhythm - f.rhythm| / (12/10)) := le_max_left _ _
  have e3 : (0:ℚ) ≤ max 0 (1 - |ex.brightness - f.brightness| / 2500) := le_max_left _ _
  have e4 : (0:ℚ) ≤ max 0 (1 - |ex.bass - f.bass| / (ex.bass + 1/1000000)) := le_max_left _ _
  have u1 : max 0 (1 - |ex.bpm - f.bpm| / 30) ≤ 1 := max_le (by norm_num) (by linarith)
  have u2 : max 0 (1 - |ex.rhythm - f.rhythm| / (12/10)) ≤ 1 :=
    max_le (by norm_num) (by linarith)
  have u3 : max 0 (1 - |ex.brightness - f.brightness| / 2500) ≤ 1 :=
    max_le (by norm_num) (by linarith)
  have u4 : max 0 (1 - |ex.bass - f.bass| / (ex.bass + 1/1000000)) ≤ 1 :=
    max_le (by norm_num) (by linarith)
  have e5 : (0:ℚ) ≤ (if ex.key = f.key then (1:ℚ) else 0) := by split <;> norm_num
  have u5 : (if ex.key = f.key then (1:ℚ) else 0) ≤ 1 := by split <;> norm_num
  dsimp only [similarity_score]
  refine ⟨?_, ?_, rfl⟩
  · have p1 := mul_nonneg w1 e1
    have p2 := mul_nonneg w2 e2
    have p3 := mul_nonneg w3 e4
    have p4 := mul_nonneg w4 e3
    have p5 := mul_nonneg w5 e5
    linarith
  · have q1 := mul_le_of_le_one_right w1 u1
    have q2 := mul_le_of_le_one_right w2 u2
    have q3 := mul_le_of_le_one_right w3 u4
    have q4 := mul_le_of_le_one_right w4 u3
    have q5 := mul_le_of_le_one_right w5 u5
    linarith

/-- Witness for C5: the score of `feat150` (30 bpm away from `prof0`)
against `prof0` for genre `"Techno"`. -/
theorem similarity_score_bounded_unit_interval_witness :
    (0:ℚ) ≤ prof0.bass ∧
      (0 ≤ similarity_score prof0 feat150 (some "Techno") ∧
        similarity_score prof0 feat150 (some "Techno") ≤ 1 ∧
        similarity_score prof0 feat150 (some "Techno") =
          similarity_score prof0 feat150 (some "Techno")) :=
  ⟨by norm_num [prof0],
    similarity_score_bounded_unit_interval prof0 feat150 (some "Techno")
      (by norm_num [prof0])⟩

/-! ## C9: agreement in all five dimensions gives score 1 -/

/-- C9: for every genre (with or without a weight row — `none` models a
missing genre field) and every profile/candidate pair agreeing exactly in
bpm, rhythm, brightness, bass and key, with positive bass,
`similarity_score` returns exactly 1: all five sub-scores are 1 and every
reachable weight row sums to 1. -/
theorem identical_inputs_score_one (ex : Profile) (f : Feature) (g : Option String)
    (h1 : ex.bpm = f.bpm) (h2 : ex.rhythm = f.rhythm) (h3 : ex.brightness = f.brightness)
    (h4 : ex.bass = f.bass) (h5 : ex.key = f.key) (_hbass : 0 < f.bass) :
    similarity_score ex f g = 1 := by
  obtain ⟨w1, w2, w3, w4, w5, hsum⟩ := weightsOk_lookup g
  dsimp only [similarity_score]
  rw [h1, h2, h3, h4, h5]
  simp only [sub_self, abs_zero, zero_div, sub_zero, eq_self_iff_true, if_true]
  rw [max_eq_right (by norm_num : (0:ℚ) ≤ 1)]
  simp only [mul_one]
  exact hsum

/-- Witness for C9: `prof0` against `feat0` (identical in all five
dimensions, bass 5 > 0) for a genre absent from the weight table. -/
theorem identical_inputs_score_one_witness :
    prof0.bpm = feat0.bpm ∧ prof0.rhythm = feat0.rhythm ∧
      prof0.brightness = feat0.brightness ∧ prof0.bass = feat0.bass ∧
      prof0.key = feat0.key ∧ 0 < feat0.bass ∧
      similarity_score prof0 feat0 (some "Organic House") = 1 :=
  ⟨rfl, rfl, rfl, rfl, rfl, by norm_num [feat0],
    identical_inputs_score_one prof0 feat0 (some "Organic House") rfl rfl rfl rfl rfl
      (by norm_num [feat0])⟩

/-! ## C3: profile aggregation -/

/-- Python's `max` scan returns an element of the scanned list (with the
seed in front). -/
theorem pyMaxGo_mem (f : String → ℕ) (xs : List String) :
    ∀ best, pyMaxGo f best xs ∈ best :: xs := by
  induction xs with
  | nil =>
    intro best
    simp [pyMaxGo]
  | cons x xs ih =>
    intro best
    simp only [pyMaxGo]
    split
    · exact List.mem_cons_of_mem best (ih x)
    · rcases List.mem_cons.mp (ih best) with h | h
      · exact List.mem_cons.mpr (Or.inl h)
      · exact List.mem_cons.mpr (Or.inr (List.mem_cons_of_mem x h))

/-- Python's `max` scan returns an element whose key value dominates every
scanned element's. -/
theorem pyMaxGo_le (f : String → ℕ) (xs : List String) :
    ∀ best, ∀ y ∈ best :: xs, f y ≤ f (pyMaxGo f best xs) := by
  induction xs with
  | nil =>
    intro best y hy
    have h : y = best := by simpa using hy
    rw [h]
    simp [pyMaxGo]
  | cons x xs ih =>
    intro best y hy
    by_cases hlt : f best < f x
    · simp only [pyMaxGo, if_pos hlt]
      rcases List.mem_cons.mp hy with h | h
      · rw [h]
        exact le_trans (le_of_lt hlt) (ih x x (List.mem_cons_self x xs))
      · exact ih x y h
    · simp only [pyMaxGo, if_neg hlt]
      rcases List.mem_cons.mp hy with h | h
      · rw [h]
        exact ih best best (List.mem_cons_self best xs)
      · rcases List.mem_cons.mp h with h' | h'
        · rw [h']
          exact le_trans (Nat.le_of_not_lt hlt) (ih best best (List.mem_cons_self best xs))
        · exact ih best y (List.mem_cons_of_mem best h')

/-- C3, amended: whenever `analyze_examples_folder` succeeds and `keyEnum`
enumerates exactly the keys occurring among the surviving example feature
vectors (as Python's `set(keys)` does, in some hash-determined order), the
profile's bpm, rhythm, brightness and bass are the arithmetic means of the
example values, and its key is one of the example keys of maximal
multiplicity — in particular the unique mode when there is one. The
claim's further assertion that ties break toward the first-encountered key
is refuted by `profile_key_tie_cex`. -/
theorem profile_aggregates_means_and_mode (files : List ExampleFile)
    (keyEnum : List String) (p : Profile)
    (hok : analyze_examples_folder files keyEnum = .ok p)
    (henum : ∀ k, k ∈ keyEnum ↔ k ∈ (exampleFeatures files).map (·.key)) :
    p.bpm = mean ((exampleFeatures files).map (·.bpm)) ∧
      p.rhythm = mean ((exampleFeatures files).map (·.rhythm)) ∧
      p.brightness = mean ((exampleFeatures files).map (·.brightness)) ∧
      p.bass = mean ((exampleFeatures files).map (·.bass)) ∧
      p.count = (exampleFeatures files).length ∧
      p.key ∈ (exampleFeatures files).map (·.key) ∧
      ∀ k ∈ (exampleFeatures files).map (·.key),
        ((exampleFeatures files).map (·.key)).count k ≤
          ((exampleFeatures files).map (·.key)).count p.key := by
  simp only [analyze_examples_folder] at hok
  split at hok
  · cases hok
  · rename_i hne
    rw [Except.ok.injEq] at hok
    subst hok
    have hkeys : (exampleFeatures files).map (·.key) ≠ [] := by
      intro h
      rw [List.map_eq_nil_iff] at h
      rw [h] at hne
      simp at hne
    obtain ⟨k0, hk0⟩ := List.exists_mem_of_ne_nil _ hkeys
    have hk0e : k0 ∈ keyEnum := (henum k0).mpr hk0
    cases keyEnum with
    | nil => simp at hk0e
    | cons e es =>
      refine ⟨rfl, rfl, rfl, rfl, rfl, ?_, ?_⟩
      · exact (henum _).mp (pyMaxGo_mem _ es e)
      · intro k hk
        exact pyMaxGo_le (fun k => ((exampleFeatures files).map (·.key)).count k) es e k
          ((henum k).mpr hk)

/-- The `.mp3` extension is on the supported allow-list. -/
theorem mp3_supported : strLower ".mp3" ∈ SUPPORTED_EXT := by decide

/-- The surviving features of the spec's three-example folder. -/
theorem exampleFeatures_meanFiles :
    exampleFeatures meanFiles = [cFeat 120 "C", cFeat 122 "C", cFeat 124 "G"] := by
  simp [exampleFeatures, meanFiles, mp3_supported]

/-- The surviving features of the tied four-example folder. -/
theorem exampleFeatures_tieFiles :
    exampleFeatures tieFiles =
      [cFeat 120 "C", cFeat 120 "C", cFeat 120 "G", cFeat 120 "G"] := by
  simp [exampleFeatures, tieFiles, mp3_supported]

/-- On the spec's example folder the profile comes out with bpm 122 and
key "C". -/
theorem analyze_meanFiles :
    analyze_examples_folder meanFiles ["C", "G"] = .ok meanProfile := by
  simp only [analyze_examples_folder, exampleFeatures_meanFiles]
  rw [if_neg (by decide)]
  have hmp : meanProfile =
      { bpm := 122, rhythm := 1, brightness := 1000, bass := 5, key := "C", count := 3 } := rfl
  rw [hmp, Except.ok.injEq, Profile.mk.injEq]
  refine ⟨by norm_num [mean, cFeat], by norm_num [mean, cFeat], by norm_num [mean, cFeat],
    by norm_num [mean, cFeat], by decide, by decide⟩

/-- Witness for C3 at the spec's example: bpm 120/122/124 give mean 122,
keys C, C, G give mode "C" (here with set order `["C", "G"]`). -/
theorem profile_aggregates_means_and_mode_witness :
    analyze_examples_folder meanFiles ["C", "G"] = .ok meanProfile ∧
      (∀ k, k ∈ ["C", "G"] ↔ k ∈ (exampleFeatures meanFiles).map (·.key)) ∧
      meanProfile.bpm = 122 ∧ meanProfile.key = "C" ∧
      (meanProfile.bpm = mean ((exampleFeatures meanFiles).map (·.bpm)) ∧
        meanProfile.rhythm = mean ((exampleFeatures meanFiles).map (·.rhythm)) ∧
        meanProfile.brightness = mean ((exampleFeatures meanFiles).map (·.brightness)) ∧
        meanProfile.bass = mean ((exampleFeatures meanFiles).map (·.bass)) ∧
        meanProfile.count = (exampleFeatures meanFiles).length ∧
        meanProfile.key ∈ (exampleFeatures meanFiles).map (·.key) ∧
        ∀ k ∈ (exampleFeatures meanFiles).map (·.key),
          ((exampleFeatures meanFiles).map (·.key)).count k ≤
            ((exampleFeatures meanFiles).map (·.key)).count meanProfile.key) := by
  have henum : ∀ k, k ∈ (["C", "G"] : List String) ↔
      k ∈ (exampleFeatures meanFiles).map (·.key) := by
    intro k
    rw [exampleFeatures_meanFiles]
    simp [cFeat]
  exact ⟨analyze_meanFiles, henum, rfl, rfl,
    profile_aggregates_means_and_mode meanFiles ["C", "G"] meanProfile analyze_meanFiles henum⟩

/-- Counterexample for C3's tie-breaking clause: with keys C, C, G, G the
first-encountered maximal key is "C", but with the (hash-order) set
enumeration `["G", "C"]` — which contains exactly the distinct keys — the
code's `max(set(keys), key=keys.count)` returns "G". -/
theorem profile_key_tie_cex :
    (exampleFeatures tieFiles).map (·.key) = ["C", "C", "G", "G"] ∧
      ((["G", "C"] : List String).all
        fun k => ((exampleFeatures tieFiles).map (·.key)).contains k) = true ∧
      (((exampleFeatures tieFiles).map (·.key)).all
        fun k => (["G", "C"] : List String).contains k) = true ∧
      (analyze_examples_folder tieFiles ["G", "C"]).map Profile.key = .ok "G" ∧
      "G" ≠ "C" := by
  refine ⟨by decide, by decide, by decide, by rfl, by decide⟩

/-! ## C1: a failed page fetch aborts the run -/

/-- C1, amended: the controller's page loop has no handler around
`fetch_tracks`, so a page whose fetch raises makes the whole run fail with
that exception rather than being treated as an empty page: whenever the
loop reaches a page whose fetch fails (the stop poll at the top of the
iteration reading false), the run returns the catalog error. -/
theorem page_fetch_failure_aborts_run (env : Env) (profile : Profile) (cfg : Config)
    (page : ℕ) (ps : List ℕ) (st : ScanState)
    (hpoll : (pollStop env st).1 = false)
    (hfail : env.pages page = none) :
    runLoop env profile cfg (page :: ps) st = .error .catalogError := by
  simp only [runLoop, hpoll, hfail, Bool.false_eq_true, if_false]

/-- Witness for the amended C1 at a concrete failing page. -/
theorem page_fetch_failure_aborts_run_witness :
    (pollStop cexEnv1 initState).1 = false ∧ cexEnv1.pages 1 = none ∧
      runLoop cexEnv1 prof0 cfg0 [1] initState = .error .catalogError :=
  ⟨rfl, rfl, page_fetch_failure_aborts_run cexEnv1 prof0 cfg0 1 [] initState rfl rfl⟩

/-- Counterexample for C1 as claimed: a full run over the single page 1
with one valid example and a failing catalog: had a failed page been
treated as an empty track set, the run would return
`.ok { kept := 0, tracks := [] }`; instead the exception propagates and
the run aborts with the catalog error. -/
theorem page_fetch_failure_abort_cex :
    build_shortlist_from_djdownload cexEnv1 cfg0 = .error .catalogError := by rfl

/-! ## C2: stream exhaustion skips the track but leaks temp files -/

/-- Exhausted streaming: if every attempt in the window fails, `streamGo`
returns no file and has created one temporary file per attempt, none of
which is deleted. -/
theorem streamGo_exhausted (outcome : ℕ → Bool) :
    ∀ fuel a, (∀ i, i < fuel → outcome (a + i) = false) →
      streamGo outcome a fuel = (none, fuel) := by
  intro fuel
  induction fuel with
  | zero =>
    intro a _
    rfl
  | succ n ih =>
    intro a h
    have ha : outcome a = false := by simpa using h 0 (Nat.succ_pos n)
    have hr : streamGo outcome (a + 1) n = (none, n) := by
      apply ih
      intro i hi
      have h2 := h (i + 1) (Nat.succ_lt_succ hi)
      have h3 : a + (i + 1) = a + 1 + i := by omega
      rwa [h3] at h2
    simp only [streamGo, ha, hr, Bool.false_eq_true, if_false]

/-- A first-attempt success returns attempt 0's file, having created
exactly one file. -/
theorem stream_track_first_success (outcome : ℕ → Bool) (h : outcome 0 = true) :
    stream_track outcome = (some 0, 1) := by
  have e : stream_track outcome =
      if outcome 0 then (some 0, 1)
      else ((streamGo outcome 1 2).1, (streamGo outcome 1 2).2 + 1) := rfl
  rw [e, if_pos h]

/-- C2, amended: when every one of the `MAX_STREAM_RETRIES` attempts for a
track's stream fails, `stream_track` returns null and the controller skips
the track — `kept`, the output tree and the poll/loop state are unchanged —
but each failed attempt's partially written temporary file stays in the
cache directory (the `except` branch never unlinks it), so the cache gains
`MAX_STREAM_RETRIES` files rather than none. -/
theorem stream_exhaustion_skips_but_leaks (env : Env) (profile : Profile) (cfg : Config)
    (st : ScanState) (track : Track) (u ttl : String)
    (hg : genreSkip cfg.genres track = false)
    (hy : yearSkip cfg.selected_years track = false)
    (hurl : track.url = some u) (htitle : track.title = some ttl)
    (hfail : ∀ i, i < MAX_STREAM_RETRIES → env.streamOutcome st.fetches i = false) :
    stream_track (env.streamOutcome st.fetches) = (none, MAX_STREAM_RETRIES) ∧
      processTrack env profile cfg st track =
        .ok { st with fetches := st.fetches + 1, cache := st.cache + MAX_STREAM_RETRIES } := by
  have hst : stream_track (env.streamOutcome st.fetches) = (none, MAX_STREAM_RETRIES) := by
    apply streamGo_exhausted
    intro i hi
    simpa using hfail i hi
  refine ⟨hst, ?_⟩
  simp only [processTrack, hg, hy, hurl, htitle, hst, Bool.false_eq_true, if_false]

/-- Witness for the amended C2: track2 against the all-failing
environment, from the initial state. -/
theorem stream_exhaustion_skips_but_leaks_witness :
    genreSkip cfg0.genres track2 = false ∧ yearSkip cfg0.selected_years track2 = false ∧
      track2.url = some "u" ∧ track2.title = some "T" ∧
      (stream_track (cexEnv1.streamOutcome initState.fetches) = (none, MAX_STREAM_RETRIES) ∧
        processTrack cexEnv1 prof0 cfg0 initState track2 =
          .ok { initState with fetches := initState.fetches + 1,
                               cache := initState.cache + MAX_STREAM_RETRIES }) :=
  ⟨rfl, rfl, rfl, rfl,
    stream_exhaustion_skips_but_leaks cexEnv1 prof0 cfg0 initState track2 "u" "T" rfl rfl
      rfl rfl (fun _ _ => rfl)⟩

/-- Counterexample for C2 as claimed: with every attempt failing, the
fetch does return null and `kept` is unchanged, but the cache directory —
empty before the track was processed — holds 3 files afterwards, so "no
file remains in the cache directory" is false. -/
theorem stream_exhaustion_leak_cex :
    processTrack cexEnv1 prof0 cfg0 initState track2 =
        .ok { initState with fetches := 1, cache := 3 } ∧
      initState.cache = 0 ∧ (3 : ℕ) ≠ 0 :=
  ⟨by rfl, rfl, by decide⟩

/-! ## C4: cancellation stops the scan -/

/-- If the supplied stop flag reads true at the poll opening a page
iteration, the page loop returns the accumulated state at once: `kept`,
the fetched-page list, the cache, the output and the fetch counter are all
unchanged (only the poll counter advances). -/
theorem runLoop_stopped (env : Env) (profile : Profile) (cfg : Config) (f : ℕ → Bool)
    (hstop : env.stop = some f) (ps : List ℕ) (st : ScanState)
    (htrue : f st.polls = true) :
    ∃ st', runLoop env profile cfg ps st = .ok st' ∧ st'.kept = st.kept ∧
      st'.pagesFetched = st.pagesFetched ∧ st'.cache = st.cache ∧
      st'.output = st.output ∧ st'.fetches = st.fetches := by
  cases ps with
  | nil => exact ⟨st, rfl, rfl, rfl, rfl, rfl, rfl⟩
  | cons p rest =>
    refine ⟨{ st with polls := st.polls + 1 }, ?_, rfl, rfl, rfl, rfl, rfl⟩
    simp only [runLoop, pollStop, hstop, htrue, if_true]

/-- C4: once the stop predicate reads true at a poll point — whether the
poll at the top of a page iteration or the poll before a track — a
monotone (set-once, as the app's session flag is) predicate makes the run
stop: the scan returns the `ScanResult` accumulated so far as a normal
`.ok` outcome, with no further page fetch, no further stream fetch, and no
change to `kept`, the cache or the output tree. The first conjunct is the
page-boundary poll; the second runs the remaining track loop of the
current page followed by the remaining pages. -/
theorem cancellation_stops_scan (env : Env) (profile : Profile) (cfg : Config)
    (f : ℕ → Bool) (hstop : env.stop = some f)
    (hmono : ∀ m n : ℕ, m ≤ n → f m = true → f n = true)
    (ps : List ℕ) (tracks : List Track) (st : ScanState)
    (htrue : f st.polls = true) :
    (∃ st', runLoop env profile cfg ps st = .ok st' ∧ st'.kept = st.kept ∧
      st'.pagesFetched = st.pagesFetched ∧ st'.cache = st.cache ∧
      st'.output = st.output ∧ st'.fetches = st.fetches) ∧
    (∃ st'', (runTracks env profile cfg tracks st).bind (runLoop env profile cfg ps) =
        .ok st'' ∧ st''.kept = st.kept ∧ st''.pagesFetched = st.pagesFetched ∧
      st''.cache = st.cache ∧ st''.output = st.output ∧ st''.fetches = st.fetches) := by
  refine ⟨runLoop_stopped env profile cfg f hstop ps st htrue, ?_⟩
  cases tracks with
  | nil => exact runLoop_stopped env profile cfg f hstop ps st htrue
  | cons t ts =>
    have h2 : f (st.polls + 1) = true := hmono st.polls (st.polls + 1) (Nat.le_succ _) htrue
    obtain ⟨st', h, hk, hp, hc, ho, hf⟩ :=
      runLoop_stopped env profile cfg f hstop ps { st with polls := st.polls + 1 } h2
    refine ⟨st', ?_, hk, hp, hc, ho, hf⟩
    simp only [runTracks, pollStop, hstop, htrue, if_true]
    exact h

/-- Witness for C4: a set stop flag, from the initial state, over a
three-page range with one pending track. -/
theorem cancellation_stops_scan_witness :
    stopEnv.stop = some stopAlways ∧ stopAlways initState.polls = true ∧
      ((∃ st', runLoop stopEnv prof0 cfg0 [1, 2, 3] initState = .ok st' ∧
          st'.kept = initState.kept ∧ st'.pagesFetched = initState.pagesFetched ∧
          st'.cache = initState.cache ∧ st'.output = initState.output ∧
          st'.fetches = initState.fetches) ∧
        (∃ st'', (runTracks stopEnv prof0 cfg0 [track2] initState).bind
            (runLoop stopEnv prof0 cfg0 [1, 2, 3]) = .ok st'' ∧
          st''.kept = initState.kept ∧ st''.pagesFetched = initState.pagesFetched ∧
          st''.cache = initState.cache ∧ st''.output = initState.output ∧
          st''.fetches = initState.fetches)) :=
  ⟨rfl, rfl,
    cancellation_stops_scan stopEnv prof0 cfg0 stopAlways rfl (fun _ _ _ _ => rfl)
      [1, 2, 3] [track2] initState rfl⟩

/-! ## C6: the year filter excludes mismatched dated tracks -/

/-- C6: when years are requested, `"Older"` is not among them, the track
carries a non-empty `release_date` and its release year (the prefix before
the first dash) is not among the requested years, the track loop body
leaves the state completely untouched: no stream fetch, no extraction, no
scoring and no change to `kept`, whatever the track's similarity score
would have been. -/
theorem year_filter_excludes_mismatched_track (env : Env) (profile : Profile)
    (cfg : Config) (st : ScanState) (track : Track) (d : String)
    (_hne : cfg.selected_years ≠ [])
    (hOlder : cfg.selected_years.contains "Older" = false)
    (hdate : track.release_date = some d) (hd : (d != "") = true)
    (hyear : cfg.selected_years.contains (yearOf d) = false) :
    processTrack env profile cfg st track = .ok st := by
  have hskip : yearSkip cfg.selected_years track = true := by
    simp only [yearSkip, hdate, hd, hOlder, hyear]
    rfl
  simp only [processTrack, hskip, if_true]
  split <;> rfl

/-- Witness for C6 at the spec's scenario: years `{"2025"}`, release date
`"2024-05-01"`, genre in the requested set, title and url present. -/
theorem year_filter_excludes_mismatched_track_witness :
    cfg6.selected_years ≠ [] ∧ cfg6.selected_years.contains "Older" = false ∧
      track6.release_date = some "2024-05-01" ∧ (("2024-05-01" != "") = true) ∧
      cfg6.selected_years.contains (yearOf "2024-05-01") = false ∧
      processTrack cexEnv1 prof0 cfg6 initState track6 = .ok initState :=
  ⟨by decide, rfl, rfl, rfl, by decide,
    year_filter_excludes_mismatched_track cexEnv1 prof0 cfg6 initState track6 "2024-05-01"
      (by decide) rfl rfl rfl (by decide)⟩

/-! ## C7: the no-valid-examples failure -/

/-- The surviving feature list is empty exactly when no file with a
supported extension analyses successfully. -/
theorem exampleFeatures_eq_nil_iff (files : List ExampleFile) :
    exampleFeatures files = [] ↔
      ∀ f ∈ files, strLower f.ext ∈ SUPPORTED_EXT → f.feat = none := by
  rw [exampleFeatures, List.filterMap_eq_nil_iff]
  constructor
  · intro h f hf hs
    have h2 := h f hf
    rwa [if_pos (by simpa using hs)] at h2
  · intro h f hf
    by_cases hs : strLower f.ext ∈ SUPPORTED_EXT
    · rw [if_pos (by simpa using hs)]
      exact h f hf hs
    · rw [if_neg (by simpa using hs)]

/-- C7, amended: `analyze_examples_folder` fails — always with the
no-valid-examples error — if and only if no file with a supported
extension yields a valid feature vector; on success the profile's count is
at least 1; and the failure is raised before any page is scanned: when it
fires, the run's outcome is the same error whatever the catalog returns
for any page. (That it is the *only* failure the controller propagates is
refuted by `non_profile_failure_propagates_cex`: page-fetch failures
propagate too.) -/
theorem no_valid_examples_characterisation (files : List ExampleFile)
    (keyEnum : List String) (env : Env) (cfg : Config) :
    (analyze_examples_folder files keyEnum = .error .noValidExamples ↔
        ∀ f ∈ files, strLower f.ext ∈ SUPPORTED_EXT → f.feat = none) ∧
      (∀ p, analyze_examples_folder files keyEnum = .ok p → 1 ≤ p.count) ∧
      (analyze_examples_folder env.examples env.keyEnum = .error .noValidExamples →
        ∀ pg, build_shortlist_from_djdownload { env with pages := pg } cfg =
          .error .noValidExamples) := by
  refine ⟨?_, ?_, ?_⟩
  · rw [← exampleFeatures_eq_nil_iff]
    constructor
    · intro h
      simp only [analyze_examples_folder] at h
      split at h
      · rename_i hemp
        simpa [List.isEmpty_iff] using hemp
      · cases h
    · intro h
      simp only [analyze_examples_folder, h]
      rfl
  · intro p hp
    simp only [analyze_examples_folder] at hp
    split at hp
    · cases hp
    · rename_i hne
      rw [Except.ok.injEq] at hp
      subst hp
      have hnil : exampleFeatures files ≠ [] := by
        simpa [List.isEmpty_iff] using hne
      simpa using List.length_pos.mpr hnil
  · intro herr pg
    simp only [build_shortlist_from_djdownload]
    rw [show ({ env with pages := pg } : Env).examples = env.examples from rfl,
      show ({ env with pages := pg } : Env).keyEnum = env.keyEnum from rfl, herr]

/-- Witness for C7: an empty examples folder raises the error, and the
whole run fails with it whatever the catalog would have served. -/
theorem no_valid_examples_characterisation_witness :
    analyze_examples_folder emptyExamplesEnv.examples emptyExamplesEnv.keyEnum =
        .error .noValidExamples ∧
      build_shortlist_from_djdownload { emptyExamplesEnv with pages := fun _ => some [] }
          cfg0 = .error .noValidExamples :=
  ⟨rfl,
    (no_valid_examples_characterisation [] ["C"] emptyExamplesEnv cfg0).2.2 rfl
      (fun _ => some [])⟩

/-- Counterexample for C7's "only propagated failure" clause: with one
valid example (so profile building succeeds) and a failing catalog page,
the controller propagates the catalog error, a failure distinct from
`NoValidExamplesError`. -/
theorem non_profile_failure_propagates_cex :
    build_shortlist_from_djdownload cexEnv1 cfg0 = .error .catalogError ∧
      EngineError.catalogError ≠ EngineError.noValidExamples :=
  ⟨by rfl, by decide⟩

/-! ## C10: undated tracks bypass the year filter -/

/-- C10: for a track whose `release_date` is absent or empty, the year
filter's guard `if release_date:` is falsy, so no year filter is applied
at all: the track loop body does not depend on the requested years, and
(when the genre filter passes and `title`/`url` are present) the track
proceeds to the stream fetch — the fetch counter advances — whatever years
were requested. -/
theorem undated_track_bypasses_year_filter (env : Env) (profile : Profile) (cfg : Config)
    (st : ScanState) (track : Track) (g u ttl : String)
    (hdate : track.release_date = none ∨ track.release_date = some "")
    (hgenre : track.genre = some g)
    (hpass : cfg.genres = [] ∨ g ∈ cfg.genres)
    (hurl : track.url = some u) (htitle : track.title = some ttl) :
    (∀ years : List String,
        processTrack env profile { cfg with selected_years := years } st track =
          processTrack env profile cfg st track) ∧
      (∃ st', processTrack env profile cfg st track = .ok st' ∧
        st'.fetches = st.fetches + 1) := by
  have hy : ∀ years, yearSkip years track = false := by
    intro years
    rcases hdate with h | h <;> simp [yearSkip, h]
  have hg : genreSkip cfg.genres track = false := by
    rcases hpass with h | h
    · simp [genreSkip, h]
    · simp [genreSkip, optMem, hgenre, h]
  constructor
  · intro years
    simp only [processTrack, hy]
  · simp only [processTrack, hg, hy, Bool.false_eq_true, if_false, hurl, htitle]
    rcases hS : stream_track (env.streamOutcome st.fetches) with ⟨r, n⟩
    simp only [hS]
    cases r with
    | none => exact ⟨_, rfl, rfl⟩
    | some k =>
      cases hE : env.extractResult st.fetches with
      | none =>
        simp only [hE]
        exact ⟨_, rfl, rfl⟩
      | some features =>
        simp only [hE, hgenre]
        split
        · exact ⟨_, rfl, rfl⟩
        · exact ⟨_, rfl, rfl⟩

/-- `prof0` and `feat0` agree in every dimension, so the Techno row sums
to the full score 1. -/
theorem scoreTechno : similarity_score prof0 feat0 (some "Techno") = 1 := by
  simp [similarity_score, prof0, feat0, lookupWeights, GENRE_WEIGHTS, List.lookup]
  norm_num [max_def]

/-- Rounding the exact score 1 to three decimals gives 1. -/
theorem round3_one : round3 1 = 1 := by norm_num [round3, round_eq]

/-- The undated `track2` is committed by the scan configured with years
`{"2025"}`: it reaches fetch, extraction and scoring and ends up in
`kept`, demonstrating that undated tracks can be committed when every
requested year is specific. -/
theorem undated_track_commit : processTrack env10 prof0 cfg10 initState track2 =
    .ok { kept := [{ artist := "", title := "T", genre := "Techno", score := 1 }]
          cache := 0
          output := [("Techno", "T.mp3")]
          fetches := 1
          polls := 0
          pagesFetched := [] } := by
  have hg : genreSkip cfg10.genres track2 = false := by decide
  have hy : yearSkip cfg10.selected_years track2 = false := by decide
  have hstream : stream_track (env10.streamOutcome initState.fetches) = (some 0, 1) :=
    stream_track_first_success _ rfl
  simp only [processTrack, hg, hy, Bool.false_eq_true, if_false, hstream]
  simp only [track2]
  rw [show env10.extractResult initState.fetches = some feat0 from rfl]
  simp only []
  rw [scoreTechno, if_pos (by norm_num [cfg10] : cfg10.threshold ≤ (1:ℚ)), round3_one]
  rfl

/-- Witness for C10: the undated `track2` under request `cfg10` (genre
Techno, years `{"2025"}`): the loop body ignores the years and the track
is fetched — and, per `undated_track_commit`, committed. -/
theorem undated_track_bypasses_year_filter_witness :
    (track2.release_date = none ∨ track2.release_date = some "") ∧
      track2.genre = some "Techno" ∧ (cfg10.genres = [] ∨ "Techno" ∈ cfg10.genres) ∧
      track2.url = some "u" ∧ track2.title = some "T" ∧
      ((∀ years : List String,
          processTrack env10 prof0 { cfg10 with selected_years := years } initState track2 =
            processTrack env10 prof0 cfg10 initState track2) ∧
        (∃ st', processTrack env10 prof0 cfg10 initState track2 = .ok st' ∧
          st'.fetches = initState.fetches + 1)) :=
  ⟨Or.inl rfl, rfl, Or.inr (by decide), rfl, rfl,
    undated_track_bypasses_year_filter env10 prof0 cfg10 initState track2 "Techno" "u" "T"
      (Or.inl rfl) rfl (Or.inr (by decide)) rfl rfl⟩

end DJShortlist
